import Mathlib

/-!
Verification development for the theming and title-bar widget logic of a
menu toolkit (`themes.py` and `widgets/widget/menubar.py`).

The embedding follows the Python source:

* Python numbers are modelled as `ℚ` (geometry, offsets, scalar theme
  fields) or `ℤ` (pixel rectangle fields, color channels; the source only
  ever constructs and compares integer color channels).
* Python `int(x)` truncation toward zero is `pyInt`.
* Python `assert cond, msg` raising `AssertionError` is `pyAssert`,
  and fallible functions return `Except String`.
* Python tuples versus lists of numbers are distinguished by `PyTup`,
  because `Theme.validate` deliberately re-types lists into tuples.
-/

/-- Python `int(q)`: truncation toward zero. -/
def pyInt (q : ℚ) : ℤ := if 0 ≤ q then ⌊q⌋ else -⌊-q⌋

/-- Python `assert cond, msg`: succeeds silently or raises. -/
def pyAssert (c : Bool) (msg : String) : Except String Unit :=
  if c then .ok () else .error msg

/-- A Python sequence of numbers, remembering whether it is a `tuple` or a
`list` (the theme validator converts lists into tuples). -/
inductive PyTup (α : Type) where
  | tup (l : List α)
  | lst (l : List α)
deriving DecidableEq, Repr

/-- Underlying number sequence of a tuple or list. -/
def PyTup.list {α : Type} : PyTup α → List α
  | .tup l => l
  | .lst l => l

/-- A value accepted where the theme expects a color: either a `BaseImage`
(whose contents are irrelevant to the claims) or a tuple/list of integer
channels. -/
inductive ColorV where
  | img
  | vec (v : PyTup ℤ)
deriving DecidableEq, Repr

/-- Channel `i` of a color value (`c[i]` in Python), `none` when the
subscript would fail. -/
def colorChannel (c : Option ColorV) (i : ℕ) : Option ℤ :=
  match c with
  | some (ColorV.vec v) => v.list[i]?
  | _ => none

/-- Modelled from the spec: `pygame_menu.utils.assert_color` (the module is
not part of the sources) checks a 3- or 4-element tuple/list of channel
values each between 0 and 255. -/
def assert_color (l : List ℤ) : Bool :=
  (l.length = 3 ∨ l.length = 4) ∧ ∀ ch ∈ l, 0 ≤ ch ∧ ch ≤ 255

/-- Modelled from the spec: the named-direction constants of
`pygame_menu.locals` (the module is not part of the sources). -/
def POSITIONS : List String :=
  ["position-north", "position-south", "position-east", "position-west",
   "position-northwest", "position-northeast", "position-southwest",
   "position-southeast", "position-center"]

def POSITION_EAST : String := "position-east"

def POSITION_NORTHWEST : String := "position-northwest"

def POSITION_SOUTHEAST : String := "position-southeast"

def ALIGN_CENTER : String := "align-center"

/-- Modelled from the spec: `pygame_menu.utils.assert_position` checks
membership in the closed enum of named directions. -/
def assert_position (p : String) : Bool := POSITIONS.contains p

/-- Modelled from the spec: `pygame_menu.utils.assert_alignment` checks
membership in the closed enum of alignments. -/
def assert_alignment (a : String) : Bool :=
  ["align-left", "align-center", "align-right"].contains a

/-- Modelled from the spec: `get_scrollbars_from_position` (scrollarea
module, not part of the sources) yields a non-`None` result exactly for the
recognized direction/corner names. -/
def scrollbars_from_position_some (p : String) : Bool :=
  ["position-north", "position-south", "position-east", "position-west",
   "position-northwest", "position-northeast", "position-southwest",
   "position-southeast"].contains p

-- Menubar styles (menubar.py, file constants)
def MENUBAR_STYLE_ADAPTIVE : ℤ := 1000
def MENUBAR_STYLE_SIMPLE : ℤ := 1001
def MENUBAR_STYLE_TITLE_ONLY : ℤ := 1002
def MENUBAR_STYLE_TITLE_ONLY_DIAGONAL : ℤ := 1003
def MENUBAR_STYLE_NONE : ℤ := 1004
def MENUBAR_STYLE_UNDERLINE : ℤ := 1005
def MENUBAR_STYLE_UNDERLINE_TITLE : ℤ := 1006

/-- `check_menubar_style` from `themes.py`. -/
def check_menubar_style (style : ℤ) : Bool :=
  style = MENUBAR_STYLE_ADAPTIVE ∨ style = MENUBAR_STYLE_SIMPLE ∨
  style = MENUBAR_STYLE_TITLE_ONLY ∨ style = MENUBAR_STYLE_TITLE_ONLY_DIAGONAL ∨
  style = MENUBAR_STYLE_NONE ∨ style = MENUBAR_STYLE_UNDERLINE ∨
  style = MENUBAR_STYLE_UNDERLINE_TITLE

/-- Python padding values: a single number or a tuple/list. -/
inductive PaddingV where
  | num (q : ℚ)
  | vec (v : PyTup ℚ)
deriving DecidableEq, Repr

/-- The `Theme` attribute record (`themes.py`).  Fields whose Python
`isinstance` checks are enforced by this typed embedding keep their natural
Lean types; color fields are `Option ColorV` mirroring the dynamic
color-or-image-or-`None` values. -/
structure Theme where
  background_color : Option ColorV
  cursor_color : Option ColorV
  cursor_selection_color : Option ColorV
  focus_background_color : Option ColorV
  readonly_color : Option ColorV
  readonly_selected_color : Option ColorV
  selection_color : Option ColorV
  surface_clear_color : Option ColorV
  menubar_close_button : Bool
  title_background_color : Option ColorV
  title_bar_modify_scrollarea : Bool
  title_bar_style : ℤ
  title_font : String
  title_font_antialias : Bool
  title_font_color : Option ColorV
  title_font_size : ℤ
  title_offset : PyTup ℚ
  title_shadow : Bool
  title_shadow_color : Option ColorV
  title_shadow_offset : ℚ
  title_shadow_position : String
  scrollarea_outer_margin : PyTup ℚ
  scrollarea_position : String
  scrollbar_color : Option ColorV
  scrollbar_shadow : Bool
  scrollbar_shadow_color : Option ColorV
  scrollbar_shadow_offset : ℚ
  scrollbar_shadow_position : String
  scrollbar_slider_color : Option ColorV
  scrollbar_slider_pad : ℚ
  scrollbar_thick : ℚ
  widget_alignment : String
  widget_background_color : Option ColorV
  widget_background_inflate : PyTup ℚ
  widget_font : String
  widget_font_antialias : Bool
  widget_font_background_color : Option ColorV
  widget_font_background_color_from_menu : Bool
  widget_font_color : Option ColorV
  widget_font_size : ℤ
  widget_margin : PyTup ℚ
  widget_offset : PyTup ℚ
  widget_padding : PaddingV
  widget_shadow : Bool
  widget_shadow_color : Option ColorV
  widget_shadow_offset : ℚ
  widget_shadow_position : String
deriving DecidableEq, Repr

/-- The default `Theme()` values from `Theme.__init__` (the
`widget_selection_effect` object carries no data relevant to any claim and
is omitted). -/
def themeDefault : Theme where
  background_color := some (ColorV.vec (PyTup.tup [220, 220, 220]))
  cursor_color := some (ColorV.vec (PyTup.tup [0, 0, 0]))
  cursor_selection_color := some (ColorV.vec (PyTup.tup [30, 30, 30, 120]))
  focus_background_color := some (ColorV.vec (PyTup.tup [0, 0, 0, 180]))
  readonly_color := some (ColorV.vec (PyTup.tup [120, 120, 120]))
  readonly_selected_color := some (ColorV.vec (PyTup.tup [190, 190, 190]))
  selection_color := some (ColorV.vec (PyTup.tup [255, 255, 255]))
  surface_clear_color := some (ColorV.vec (PyTup.tup [0, 0, 0]))
  menubar_close_button := true
  title_background_color := some (ColorV.vec (PyTup.tup [70, 70, 70]))
  title_bar_modify_scrollarea := true
  title_bar_style := MENUBAR_STYLE_ADAPTIVE
  title_font := "font-open-sans"
  title_font_antialias := true
  title_font_color := some (ColorV.vec (PyTup.tup [220, 220, 220]))
  title_font_size := 40
  title_offset := PyTup.tup [5, -1]
  title_shadow := false
  title_shadow_color := some (ColorV.vec (PyTup.tup [0, 0, 0]))
  title_shadow_offset := 2
  title_shadow_position := POSITION_NORTHWEST
  scrollarea_outer_margin := PyTup.tup [0, 0]
  scrollarea_position := POSITION_SOUTHEAST
  scrollbar_color := some (ColorV.vec (PyTup.tup [220, 220, 220]))
  scrollbar_shadow := false
  scrollbar_shadow_color := some (ColorV.vec (PyTup.tup [0, 0, 0]))
  scrollbar_shadow_offset := 2
  scrollbar_shadow_position := POSITION_NORTHWEST
  scrollbar_slider_color := some (ColorV.vec (PyTup.tup [200, 200, 200]))
  scrollbar_slider_pad := 0
  scrollbar_thick := 20
  widget_alignment := ALIGN_CENTER
  widget_background_color := none
  widget_background_inflate := PyTup.tup [0, 0]
  widget_font := "font-open-sans"
  widget_font_antialias := true
  widget_font_background_color := none
  widget_font_background_color_from_menu := false
  widget_font_color := some (ColorV.vec (PyTup.tup [70, 70, 70]))
  widget_font_size := 30
  widget_margin := PyTup.tup [0, 10]
  widget_offset := PyTup.tup [0, 0]
  widget_padding := PaddingV.num 0
  widget_shadow := false
  widget_shadow_color := some (ColorV.vec (PyTup.tup [0, 0, 0]))
  widget_shadow_offset := 2
  widget_shadow_position := POSITION_NORTHWEST

/-- `Theme._format_opacity`: images and `None` pass through; a 4-element
tuple is returned as is and a 4-element list is re-typed into a tuple; a
3-element color gains alpha 255; `assert_color` is checked first. -/
def format_opacity (color : Option ColorV) : Except String (Option ColorV) :=
  match color with
  | some ColorV.img => .ok (some ColorV.img)
  | none => .ok none
  | some (ColorV.vec v) =>
    let l := v.list
    if assert_color l then
      if l.length = 4 then
        -- tuple input is returned unchanged, list input re-typed to tuple
        .ok (some (ColorV.vec (PyTup.tup l)))
      else if l.length = 3 then
        .ok (some (ColorV.vec (PyTup.tup (l ++ [255]))))
      else
        .ok (some (ColorV.vec v))
    else .error "color assertion failed"

/-- `Theme._vec_to_tuple`: turns a tuple/list into a tuple, optionally
checking its length. -/
def vec_to_tuple (v : PyTup ℚ) (check_length : ℕ) : Except String (PyTup ℚ) :=
  let l := v.list
  if check_length > 0 ∧ l.length ≠ check_length then
    .error "object is not a correct-length vector"
  else .ok (PyTup.tup l)

/-- Python subscript `v[i]` on a tuple/list of numbers. -/
def pySub (v : PyTup ℚ) (i : ℕ) : Except String ℚ :=
  match v.list[i]? with
  | some q => .ok q
  | none => .error "IndexError"

/-- The widget padding conversion step of `Theme.validate`: a plain number
is kept, a tuple/list is converted to a tuple whose length must be 2 to 4. -/
def convert_widget_padding (p : PaddingV) : Except String PaddingV :=
  match p with
  | PaddingV.num q => .ok (PaddingV.num q)
  | PaddingV.vec v => do
    let v2 ← vec_to_tuple v 0
    pyAssert (2 ≤ v2.list.length ∧ v2.list.length ≤ 4)
      "widget padding tuple length must be 2, 3 or 4"
    .ok (PaddingV.vec v2)

/-- The body of `Theme.validate` up to (but excluding) its final
`focus_background_color` alpha assertion: the boolean/str/number
`isinstance` asserts are enforced by the embedding types; then style and
position membership checks, color formatting, list-to-tuple conversion and
the size checks, mutating the record in place (modelled functionally).
The `widget_selection_effect.set_color` call is a visual side effect on an
external object and is not part of the record. -/
def validateBody (t : Theme) : Except String Theme := do
  pyAssert (check_menubar_style t.title_bar_style) "invalid title bar style"
  pyAssert (assert_position t.title_shadow_position) "invalid title shadow position"
  pyAssert (scrollbars_from_position_some t.scrollarea_position) "invalid scrollarea position"
  pyAssert (assert_position t.scrollbar_shadow_position) "invalid scrollbar shadow position"
  pyAssert (assert_alignment t.widget_alignment) "invalid widget alignment"
  pyAssert (assert_position t.widget_shadow_position) "invalid widget shadow position"
  let background_color ← format_opacity t.background_color
  let cursor_color ← format_opacity t.cursor_color
  let cursor_selection_color ← format_opacity t.cursor_selection_color
  let focus_background_color ← format_opacity t.focus_background_color
  let readonly_color ← format_opacity t.readonly_color
  let readonly_selected_color ← format_opacity t.readonly_selected_color
  let scrollbar_color ← format_opacity t.scrollbar_color
  let scrollbar_shadow_color ← format_opacity t.scrollbar_shadow_color
  let scrollbar_slider_color ← format_opacity t.scrollbar_slider_color
  let selection_color ← format_opacity t.selection_color
  let surface_clear_color ← format_opacity t.surface_clear_color
  let title_background_color ← format_opacity t.title_background_color
  let title_font_color ← format_opacity t.title_font_color
  let title_shadow_color ← format_opacity t.title_shadow_color
  let widget_background_color ← format_opacity t.widget_background_color
  let widget_font_background_color ← format_opacity t.widget_font_background_color
  let widget_font_color ← format_opacity t.widget_font_color
  let scrollarea_outer_margin ← vec_to_tuple t.scrollarea_outer_margin 2
  let title_offset ← vec_to_tuple t.title_offset 2
  let widget_background_inflate ← vec_to_tuple t.widget_background_inflate 2
  let widget_margin ← vec_to_tuple t.widget_margin 2
  let widget_padding ← convert_widget_padding t.widget_padding
  let widget_offset ← vec_to_tuple t.widget_offset 2
  let om0 ← pySub scrollarea_outer_margin 0
  let om1 ← pySub scrollarea_outer_margin 1
  pyAssert (om0 ≥ 0 ∧ om1 ≥ 0) "scrollarea outer margin must be equal or greater than zero"
  let wo0 ← pySub widget_offset 0
  let wo1 ← pySub widget_offset 1
  pyAssert (wo0 ≥ 0 ∧ wo1 ≥ 0) "widget offset must be equal or greater than zero"
  pyAssert (t.scrollbar_shadow_offset > 0) "scrollbar shadow offset must be greater than zero"
  pyAssert (t.scrollbar_slider_pad ≥ 0) "slider pad must be equal or greater tham zero"
  pyAssert (t.scrollbar_thick > 0) "scrollbar thickness must be greater than zero"
  pyAssert (t.title_font_size > 0) "title font size must be greater than zero"
  pyAssert (t.widget_font_size > 0) "widget font size must be greater than zero"
  pyAssert (t.widget_shadow_offset > 0) "widget shadow offset must be greater than zero"
  .ok { t with
    background_color := background_color
    cursor_color := cursor_color
    cursor_selection_color := cursor_selection_color
    focus_background_color := focus_background_color
    readonly_color := readonly_color
    readonly_selected_color := readonly_selected_color
    scrollbar_color := scrollbar_color
    scrollbar_shadow_color := scrollbar_shadow_color
    scrollbar_slider_color := scrollbar_slider_color
    selection_color := selection_color
    surface_clear_color := surface_clear_color
    title_background_color := title_background_color
    title_font_color := title_font_color
    title_shadow_color := title_shadow_color
    widget_background_color := widget_background_color
    widget_font_background_color := widget_font_background_color
    widget_font_color := widget_font_color
    scrollarea_outer_margin := scrollarea_outer_margin
    title_offset := title_offset
    widget_background_inflate := widget_background_inflate
    widget_margin := widget_margin
    widget_padding := widget_padding
    widget_offset := widget_offset }

/-- `Theme.validate`: the body above followed by the final color assert
`self.focus_background_color[3] != 0`. -/
def validate (t : Theme) : Except String Theme := do
  let t2 ← validateBody t
  match colorChannel t2.focus_background_color 3 with
  | some a =>
    pyAssert (a ≠ 0)
      "focus background color cannot be fully transparent, suggested opacity between 1 and 255"
    .ok t2
  | none => .error "focus background color subscript failed"

/-- `Theme.set_background_color_opacity`: range-checks the opacity and
rewrites the alpha channel of the background color to `int(opacity * 255)`. -/
def set_background_color_opacity (t : Theme) (opacity : ℚ) : Except String Theme := do
  pyAssert (0 ≤ opacity ∧ opacity ≤ 1)
    "opacity must be a number between 0 (transparent) and 1 (opaque)"
  match t.background_color with
  | some (ColorV.vec v) =>
    match v.list[0]?, v.list[1]?, v.list[2]? with
    | some c0, some c1, some c2 =>
      .ok { t with
        background_color := some (ColorV.vec (PyTup.tup [c0, c1, c2, pyInt (opacity * 255)])) }
    | _, _, _ => .error "IndexError"
  | _ => .error "background color is not subscriptable"

/-- The recognized keyword parameters of `Theme.__init__`, in the order the
constructor pops them from the configuration map (note the constructor pops
the key named background_inflate for the widget background inflate field). -/
def RECOGNIZED_KEYS : List String :=
  ["background_color", "cursor_color", "cursor_selection_color",
   "focus_background_color", "readonly_color", "readonly_selected_color",
   "selection_color", "surface_clear_color", "menubar_close_button",
   "title_background_color", "title_bar_modify_scrollarea", "title_bar_style",
   "title_font", "title_font_antialias", "title_font_color", "title_font_size",
   "title_offset", "title_shadow", "title_shadow_color", "title_shadow_offset",
   "title_shadow_position", "scrollarea_outer_margin", "scrollarea_position",
   "scrollbar_color", "scrollbar_shadow", "scrollbar_shadow_color",
   "scrollbar_shadow_offset", "scrollbar_shadow_position",
   "scrollbar_slider_color", "scrollbar_slider_pad", "scrollbar_thick",
   "widget_alignment", "widget_background_color", "background_inflate",
   "widget_font", "widget_font_antialias", "widget_font_background_color",
   "widget_font_background_color_from_menu", "widget_font_color",
   "widget_font_size", "widget_margin", "widget_padding", "widget_offset",
   "widget_selection_effect", "widget_shadow", "widget_shadow_color",
   "widget_shadow_offset", "widget_shadow_position"]

/-- The keyword-consumption protocol of `Theme.__init__` over the key set of
the configuration map: each `_get` call pops its key if present, and after
all recognized keys are consumed any leftover key raises
`parameter Theme.<key> does not exist`. -/
def themeInitKeys (params : List String) : Except String Unit :=
  let leftover := RECOGNIZED_KEYS.foldl (fun ps k => ps.erase k) params
  match leftover with
  | [] => .ok ()
  | k :: _ => .error ("parameter Theme." ++ k ++ " does not exist")

-- Menubar operation modes (menubar.py, file constants)
def MODE_CLOSE : ℤ := 1020
def MODE_BACK : ℤ := 1021

/-- A `pygame.Rect`: integer position and size. -/
structure PyRect where
  x : ℤ
  y : ℤ
  w : ℤ
  h : ℤ
deriving DecidableEq, Repr

def PyRect.left (r : PyRect) : ℤ := r.x

def PyRect.top (r : PyRect) : ℤ := r.y

def PyRect.right (r : PyRect) : ℤ := r.x + r.w

def PyRect.bottom (r : PyRect) : ℤ := r.y + r.h

def PyRect.centerx (r : PyRect) : ℤ := r.x + r.w / 2

def PyRect.centery (r : PyRect) : ℤ := r.y + r.h / 2

/-- The state of the owning menu that `MenuBar` observes: its id, whether
the navigation is at the root (`not menu._top or not menu._top._prev`),
whether an on-close action is configured (`menu._onclose is not None`), and
its outer/inner widths (`get_width()` / `get_width(inner=True)`). -/
structure MenuCtx where
  id : String
  atRoot : Bool
  hasOnclose : Bool
  width : ℚ
  innerWidth : ℚ
deriving DecidableEq, Repr

/-- The memoized render hash tuple
`(menu id, rect.x, rect.y, title, font_selected_color, menu_prev_condition, visible)`. -/
abbrev RenderHash : Type :=
  String × ℤ × ℤ × String × List ℤ × Bool × Bool

instance : DecidableEq RenderHash := fun a b => inferInstanceAs (Decidable (a = b))

/-- The `MenuBar` widget state: own fields from `MenuBar.__init__` plus the
inherited `Widget` fields the menubar logic reads (`_rect`, `_visible`,
`_floating`, `_mouse_enabled`, `_font_selected_color`, and the memoized
render hash). -/
structure MenuBar where
  title : String
  width : ℤ
  offsetx : ℚ
  offsety : ℚ
  style : ℤ
  backbox : Bool
  modifyScrollarea : Bool
  boxMode : ℤ
  backboxRect : Option PyRect
  backboxPos : Option (List (ℤ × ℤ))
  polygonPos : Option (List (ℚ × ℚ))
  rectX : ℤ
  rectY : ℤ
  rectW : ℤ
  rectH : ℤ
  fontSelectedColor : List ℤ
  visible : Bool
  floating : Bool
  mouseEnabled : Bool
  lastRenderHash : Option RenderHash
deriving DecidableEq, Repr

/-- Modelled from the spec: the widget core's memoized render hash (the
`Widget._render_hash_changed` helper is not part of the sources) is the
tuple of the arguments `_render` passes it. -/
def renderHash (m : MenuCtx) (mb : MenuBar) : RenderHash :=
  (m.id, mb.rectX, mb.rectY, mb.title, mb.fontSelectedColor, m.atRoot, mb.visible)

/-- The per-style polygon of `MenuBar._render`: given the widget rect
position, the configured bar width, the rendered title surface size and the
x-offset, produces the polygon point list, the cross size and the `dy`
height increment, or fails for an unknown style. -/
def stylePolygon (style : ℤ) (x y : ℤ) (width : ℤ) (rw rh : ℤ) (ox : ℚ) :
    Except String (List (ℚ × ℚ) × ℚ × ℤ) :=
  let xq : ℚ := x
  let yq : ℚ := y
  let wq : ℚ := width
  let rwq : ℚ := rw
  let rhq : ℚ := rh
  if style = MENUBAR_STYLE_ADAPTIVE then
    .ok ([(xq, yq), (xq + wq - 1, yq), (xq + wq - 1, yq + rhq * 0.6),
          (xq + rwq + 25 + ox, yq + rhq * 0.6), (xq + rwq + 5 + ox, yq + rhq),
          (xq, yq + rhq)], rhq * 0.6, 0)
  else if style = MENUBAR_STYLE_SIMPLE then
    .ok ([(xq, yq), (xq + wq - 1, yq), (xq + wq - 1, yq + rhq),
          (xq, yq + rhq)], rhq, 0)
  else if style = MENUBAR_STYLE_TITLE_ONLY then
    .ok ([(xq, yq), (xq + rwq + 5 + ox, yq), (xq + rwq + 5 + ox, yq + rhq),
          (xq, yq + rhq)], rhq * 0.6, 0)
  else if style = MENUBAR_STYLE_TITLE_ONLY_DIAGONAL then
    .ok ([(xq, yq), (xq + rwq + 25 + ox, yq), (xq + rwq + 5 + ox, yq + rhq),
          (xq, yq + rhq)], rhq * 0.6, 0)
  else if style = MENUBAR_STYLE_NONE then
    .ok ([(xq, yq), (xq + wq - 1, yq)], rhq * 0.6, 0)
  else if style = MENUBAR_STYLE_UNDERLINE then
    .ok ([(xq, yq + 0.91 * rhq + 4), (xq + wq - 1, yq + 0.91 * rhq + 4),
          (xq + wq - 1, yq + rhq + 4), (xq, yq + rhq + 4)], 0.6 * rhq, 4)
  else if style = MENUBAR_STYLE_UNDERLINE_TITLE then
    .ok ([(xq, yq + 0.91 * rhq + 3), (xq + rwq + 5 + ox, yq + 0.91 * rhq + 3),
          (xq + rwq + 5 + ox, yq + rhq + 3), (xq, yq + rhq + 3)], 0.6 * rhq, 3)
  else .error "invalid menubar mode"

/-- The 9-point cross glyph drawn in the back box at the top menu
(`_box_mode == _MODE_CLOSE`). -/
def closeGlyph (r : PyRect) : List (ℤ × ℤ) :=
  [(r.left + 4, r.top + 4), (r.centerx, r.centery), (r.right - 4, r.top + 4),
   (r.centerx, r.centery), (r.right - 4, r.bottom - 4), (r.centerx, r.centery),
   (r.left + 4, r.bottom - 4), (r.centerx, r.centery), (r.left + 4, r.top + 4)]

/-- The 8-point back-arrow glyph drawn in the back box inside sub-menus
(`_box_mode == _MODE_BACK`). -/
def backGlyph (r : PyRect) : List (ℤ × ℤ) :=
  [(r.left + 5, r.centery), (r.centerx, r.top + 5), (r.centerx, r.centery - 2),
   (r.right - 5, r.centery - 2), (r.right - 5, r.centery + 2),
   (r.centerx, r.centery + 2), (r.centerx, r.bottom - 5), (r.left + 5, r.centery)]

/-- The back-box bounding rect of `_render`, at
`int(rect.x + width - cross_size + 4 - scroll_delta)` with side
`int(cross_size - 2*4)`, where the scroll delta is the outer-minus-inner
menu width when the bar floats. -/
def backboxRectOf (m : MenuCtx) (mb : MenuBar) (cross : ℚ) : PyRect :=
  let scrollDelta : ℚ := if mb.floating then m.width - m.innerWidth else 0
  ⟨pyInt ((mb.rectX : ℚ) + (mb.width : ℚ) - cross + 4 - scrollDelta),
   mb.rectY + 4, pyInt (cross - 2 * 4), pyInt (cross - 2 * 4)⟩

/-- The state produced by a `_render` recomputation: new box mode,
surface-sized rect (plus `dy`), the polygon, and (when a back box was
requested) the back-box rect holding the mode's glyph. -/
def renderRecompute (m : MenuCtx) (mb : MenuBar) (sw sh : ℤ)
    (poly : List (ℚ × ℚ)) (cross : ℚ) (dy : ℤ) : MenuBar :=
  let boxMode := if m.atRoot then MODE_CLOSE else MODE_BACK
  let bbRect : PyRect := backboxRectOf m mb cross
  let newBackboxRect := if mb.backbox then some bbRect else mb.backboxRect
  let newBackboxPos :=
    if mb.backbox then
      if boxMode = MODE_CLOSE then some (closeGlyph bbRect)
      else if boxMode = MODE_BACK then some (backGlyph bbRect)
      else mb.backboxPos
    else mb.backboxPos
  { mb with
    lastRenderHash := some (renderHash m mb)
    boxMode := boxMode
    rectW := sw
    rectH := sh + dy
    polygonPos := some poly
    backboxRect := newBackboxRect
    backboxPos := newBackboxPos }

/-- `MenuBar._render`.  `textSize` stands for the external font rendering
(`_render_string(title, font_selected_color).get_size()`).  Returns the new
widget state and the Python return value: `None` when there is no menu or
after a recomputation, `True` when the memoized hash is unchanged and the
recomputation is skipped. -/
def render (textSize : String → List ℤ → ℤ × ℤ) (menu : Option MenuCtx)
    (mb : MenuBar) : Except String (MenuBar × Option Bool) :=
  match menu with
  | none => .ok (mb, none)
  | some m =>
    if mb.lastRenderHash = some (renderHash m mb) then .ok (mb, some true)
    else
      let sw := (textSize mb.title mb.fontSelectedColor).1
      let sh := (textSize mb.title mb.fontSelectedColor).2
      match stylePolygon mb.style mb.rectX mb.rectY mb.width sw sh mb.offsetx with
      | .error e => .error e
      | .ok (poly, cross, dy) => .ok (renderRecompute m mb sw sh poly cross dy, none)

/-- `MenuBar._backbox_visible`: the back box is shown only when the mouse is
enabled, a back box was requested, and not (close mode with an owning menu
whose on-close action is unset). -/
def backbox_visible (menu : Option MenuCtx) (mb : MenuBar) : Bool :=
  mb.mouseEnabled && mb.backbox &&
    !(decide (mb.boxMode = MODE_CLOSE) &&
      (match menu with
       | some m => !m.hasOnclose
       | none => false))

/-- `MenuBar.get_scrollbar_style_change`: re-renders, then for the adaptive
style queried at the east position returns the vertical drop between
polygon vertices 4 and 2 as `(t, (0, -t))`; otherwise `(0, (0, 0))`.
Returns the re-rendered widget state alongside the Python return value. -/
def get_scrollbar_style_change (textSize : String → List ℤ → ℤ × ℤ)
    (menu : Option MenuCtx) (position : String) (mb : MenuBar) :
    Except String (MenuBar × (ℚ × (ℚ × ℚ))) :=
  match render textSize menu mb with
  | .error e => .error e
  | .ok (mb2, _) =>
    if !mb2.modifyScrollarea then .ok (mb2, (0, (0, 0)))
    else if mb2.style = MENUBAR_STYLE_ADAPTIVE then
      if position = POSITION_EAST then
        match mb2.polygonPos with
        | some poly =>
          match poly[4]?, poly[2]? with
          | some p4, some p2 =>
            .ok (mb2, (p4.2 - p2.2, (0, -(p4.2 - p2.2))))
          | _, _ => .error "IndexError"
        | none => .error "polygon is not subscriptable"
      else .ok (mb2, (0, (0, 0)))
    else .ok (mb2, (0, (0, 0)))

/-!
Concrete fixtures used by closed witnesses and counterexamples, and the
documented per-style point-count table.
-/

/-- The documented polygon point count per menubar style. -/
def stylePointCount (style : ℤ) : ℕ :=
  if style = MENUBAR_STYLE_ADAPTIVE then 6
  else if style = MENUBAR_STYLE_SIMPLE then 4
  else if style = MENUBAR_STYLE_TITLE_ONLY then 4
  else if style = MENUBAR_STYLE_TITLE_ONLY_DIAGONAL then 4
  else if style = MENUBAR_STYLE_NONE then 2
  else if style = MENUBAR_STYLE_UNDERLINE then 4
  else if style = MENUBAR_STYLE_UNDERLINE_TITLE then 4
  else 0

/-- State projection of a successful `render`. -/
def renderOut (textSize : String → List ℤ → ℤ × ℤ) (menu : Option MenuCtx)
    (mb : MenuBar) : MenuBar :=
  match render textSize menu mb with
  | .ok p => p.1
  | .error _ => mb

/-- State projection of a successful `validateBody`. -/
def validateBodyOut (t : Theme) : Theme :=
  match validateBody t with
  | .ok t2 => t2
  | .error _ => t

/-- A fixed title-surface size used by concrete examples: width 50, height 40. -/
def ts0 : String → List ℤ → ℤ × ℤ := fun _ _ => (50, 40)

/-- A root-level owning menu with a configured close action. -/
def m0 : MenuCtx :=
  { id := "menu0", atRoot := true, hasOnclose := true, width := 300, innerWidth := 280 }

/-- A root-level owning menu whose close action is unset. -/
def mNoClose : MenuCtx :=
  { id := "menu1", atRoot := true, hasOnclose := false, width := 300, innerWidth := 280 }

/-- A freshly constructed adaptive menubar of width 300. -/
def mb0 : MenuBar :=
  { title := "T", width := 300, offsetx := 0, offsety := 0,
    style := MENUBAR_STYLE_ADAPTIVE, backbox := true, modifyScrollarea := true,
    boxMode := 0, backboxRect := none, backboxPos := none, polygonPos := none,
    rectX := 0, rectY := 0, rectW := 0, rectH := 0, fontSelectedColor := [],
    visible := true, floating := false, mouseEnabled := true, lastRenderHash := none }

/-- The adaptive menubar with scrollarea modification disabled. -/
def mb5 : MenuBar := { mb0 with modifyScrollarea := false }

/-- The menubar whose memoized render hash already matches its state. -/
def mbSame : MenuBar := { mb0 with lastRenderHash := some (renderHash m0 mb0) }

/-- A theme whose background color is the 4-tuple (10, 20, 30, 255). -/
def themeC2 : Theme :=
  { themeDefault with background_color := some (ColorV.vec (PyTup.tup [10, 20, 30, 255])) }

/-- A theme whose background color is the 3-tuple (10, 20, 30). -/
def themeBg3 : Theme :=
  { themeDefault with background_color := some (ColorV.vec (PyTup.tup [10, 20, 30])) }

/-!
Helper lemmas shared by the claim theorems.
-/

theorem pyAssert_ok {c : Bool} {m : String} {u : Unit} :
    pyAssert c m = .ok u ↔ c = true := by
  cases c <;> simp [pyAssert]

theorem except_bind_ok {ε α β : Type} {x : Except ε α} {f : α → Except ε β} {b : β} :
    (x >>= f) = .ok b ↔ ∃ a, x = .ok a ∧ f a = .ok b := by
  cases x <;> simp [Bind.bind, Except.bind]

/-!
Claim theorems, their witnesses and counterexamples.
-/

/-- C3: for every valid 3-tuple color, format_opacity appends alpha 255; for
every valid 4-tuple or 4-list it returns the same four channels as a tuple;
consequently a theme built with background color (10, 20, 30) validates to
background color (10, 20, 30, 255). -/
theorem format_opacity_spec :
    (∀ l : List ℤ, assert_color l = true → l.length = 3 →
      format_opacity (some (ColorV.vec (PyTup.tup l))) =
          .ok (some (ColorV.vec (PyTup.tup (l ++ [255])))) ∧
        format_opacity (some (ColorV.vec (PyTup.lst l))) =
          .ok (some (ColorV.vec (PyTup.tup (l ++ [255]))))) ∧
    (∀ l : List ℤ, assert_color l = true → l.length = 4 →
      format_opacity (some (ColorV.vec (PyTup.tup l))) =
          .ok (some (ColorV.vec (PyTup.tup l))) ∧
        format_opacity (some (ColorV.vec (PyTup.lst l))) =
          .ok (some (ColorV.vec (PyTup.tup l)))) ∧
    (∃ t2, validate themeBg3 = .ok t2 ∧
      t2.background_color = some (ColorV.vec (PyTup.tup [10, 20, 30, 255]))) := by
  refine ⟨?_, ?_, ⟨_, rfl, rfl⟩⟩
  · intro l hc hl
    constructor <;> simp [format_opacity, PyTup.list, hc, hl]
  · intro l hc hl
    constructor <;> simp [format_opacity, PyTup.list, hc, hl]

/-- C3 witness: the two format branches at a concrete color. -/
theorem format_opacity_spec_witness :
    format_opacity (some (ColorV.vec (PyTup.lst [10, 20, 30]))) =
      .ok (some (ColorV.vec (PyTup.tup [10, 20, 30, 255]))) :=
  (format_opacity_spec.1 [10, 20, 30] (by decide) rfl).2

/-- C2 counterexample: at opacity one half on background (10, 20, 30, 255)
the code truncates the alpha to 127; the claimed round(opacity * 255) is
128, so the claim fails as stated. -/
theorem set_background_color_opacity_counterexample :
    set_background_color_opacity themeC2 (1/2) =
      .ok { themeC2 with
        background_color := some (ColorV.vec (PyTup.tup [10, 20, 30, 127])) } ∧
    (127 : ℤ) ≠ round ((1/2 : ℚ) * 255) := by
  constructor
  · have h127 : pyInt ((1/2 : ℚ) * 255) = 127 := by
      rw [pyInt, if_pos (by norm_num), Int.floor_eq_iff]
      constructor <;> norm_num
    have hcond : (0 ≤ (1/2 : ℚ) ∧ (1/2 : ℚ) ≤ 1) := by norm_num
    simp only [set_background_color_opacity, themeC2, pyAssert, Bind.bind, Except.bind,
      PyTup.list, h127, decide_eq_true_eq, if_pos hcond]
    rfl
  · have h : round ((1/2 : ℚ) * 255) = 128 := by
      rw [round_eq, Int.floor_eq_iff]
      constructor <;> norm_num
    omega

/-- C2 (amended): for a 4-channel background color and opacity in the unit
interval, set_background_color_opacity rewrites the alpha channel to the
floor of opacity * 255 (Python int() truncation, not rounding) leaving the
other channels unchanged; outside the unit interval it fails and the theme
is not rebuilt. -/
theorem set_background_color_opacity_spec (t : Theme) (o : ℚ) (c0 c1 c2 c3 : ℤ)
    (hbg : t.background_color = some (ColorV.vec (PyTup.tup [c0, c1, c2, c3]))) :
    (0 ≤ o → o ≤ 1 →
      set_background_color_opacity t o =
        .ok { t with
          background_color := some (ColorV.vec (PyTup.tup [c0, c1, c2, ⌊o * 255⌋])) }) ∧
    (¬ (0 ≤ o ∧ o ≤ 1) → ∃ e, set_background_color_opacity t o = .error e) := by
  constructor
  · intro h0 h1
    have hfloor : pyInt (o * 255) = ⌊o * 255⌋ := by
      rw [pyInt, if_pos (by positivity)]
    simp only [set_background_color_opacity, hbg, pyAssert, Bind.bind, Except.bind,
      PyTup.list, hfloor, decide_eq_true_eq, if_pos (And.intro h0 h1), hbg]
    rfl
  · intro h
    refine ⟨"opacity must be a number between 0 (transparent) and 1 (opaque)", ?_⟩
    simp only [set_background_color_opacity, pyAssert, Bind.bind, Except.bind,
      decide_eq_true_eq, if_neg h]

/-- C2 witness: the amended theorem at opacity 0 and at opacity 2. -/
theorem set_background_color_opacity_spec_witness :
    set_background_color_opacity themeC2 0 =
      .ok { themeC2 with
        background_color := some (ColorV.vec (PyTup.tup [10, 20, 30, ⌊(0:ℚ) * 255⌋])) } ∧
    ∃ e, set_background_color_opacity themeC2 2 = .error e :=
  ⟨(set_background_color_opacity_spec themeC2 0 10 20 30 255 rfl).1 le_rfl (by norm_num),
   (set_background_color_opacity_spec themeC2 2 10 20 30 255 rfl).2 (by norm_num)⟩

/-- Membership survives erasing keys that differ from it. -/
theorem mem_foldl_erase (keys : List String) (ps : List String) (k : String)
    (hk : k ∈ ps) (hnk : k ∉ keys) :
    k ∈ keys.foldl (fun l k2 => l.erase k2) ps := by
  induction keys generalizing ps with
  | nil => exact hk
  | cons a as ih =>
    simp only [List.foldl_cons]
    refine ih (ps.erase a) ?_ (fun h => hnk (List.mem_cons_of_mem a h))
    refine (List.mem_erase_of_ne (fun h => hnk ?_)).mpr hk
    rw [h]
    exact List.mem_cons_self a as

/-- C4: any configuration key outside the recognized schema makes theme
construction fail after all recognized keys are consumed. -/
theorem theme_init_unknown_key (params : List String) (k : String)
    (hk : k ∈ params) (hnk : k ∉ RECOGNIZED_KEYS) :
    ∃ e, themeInitKeys params = .error e := by
  have hmem := mem_foldl_erase RECOGNIZED_KEYS params k hk hnk
  unfold themeInitKeys
  rcases h : RECOGNIZED_KEYS.foldl (fun ps k2 => ps.erase k2) params with - | ⟨a, as⟩
  · rw [h] at hmem; cases hmem
  · exact ⟨_, by rw [h]⟩

/-- C4 witness: the key widget_background_inflate (the constructor pops
background_inflate instead) is rejected. -/
theorem theme_init_unknown_key_witness :
    ∃ e, themeInitKeys ["widget_background_inflate"] = .error e :=
  theme_init_unknown_key ["widget_background_inflate"] "widget_background_inflate"
    (by decide) (by decide)

/-- A successful validate body carries the formatted focus background color
into the resulting record. -/
theorem validateBody_ok_focus {t t2 : Theme} (h : validateBody t = .ok t2) :
    format_opacity t.focus_background_color = .ok t2.focus_background_color := by
  rw [validateBody] at h
  simp only [except_bind_ok, pyAssert_ok, exists_const] at h
  obtain ⟨h1, h2, h3, h4, h5, h6, bg, hbg, cc, hcc, csc, hcsc, fbc, hfbc, rc, hrc,
    rsc, hrsc, sc, hsc, ssc, hssc, slc, hslc, sec, hsec, suc, hsuc, tbc, htbc,
    tfc, htfc, tsc, htsc, wbc, hwbc, wfbc, hwfbc, wfc, hwfc, som, hsom, tof, htof,
    wbi, hwbi, wm, hwm, wp, hwp, wo, hwo, om0, hom0, om1, hom1, hom, wo0, hwo0,
    wo1, hwo1, hwoc, hs1, hs2, hs3, hs4, hs5, hs6, hfin⟩ := h
  simp only [Except.ok.injEq] at hfin
  rw [hfbc, ← hfin]

/-- C9: for every theme whose validate body succeeds and whose normalized
focus background color has an alpha channel, validate fails exactly when
that alpha is 0; a valid 3-channel focus background color forces the alpha
to 255, so it never triggers the failure. -/
theorem validate_focus_alpha (t t2 : Theme) (a : ℤ)
    (hbody : validateBody t = .ok t2)
    (ha : colorChannel t2.focus_background_color 3 = some a) :
    ((∃ e, validate t = .error e) ↔ a = 0) ∧
    (∀ l, t.focus_background_color = some (ColorV.vec (PyTup.tup l)) →
      assert_color l = true → l.length = 3 → a = 255) := by
  constructor
  · by_cases h0 : a = 0 <;>
      simp [validate, hbody, ha, pyAssert, h0, Bind.bind, Except.bind]
  · intro l hl hc h3
    have hfo := validateBody_ok_focus hbody
    rw [hl] at hfo
    have : format_opacity (some (ColorV.vec (PyTup.tup l))) =
        .ok (some (ColorV.vec (PyTup.tup (l ++ [255])))) := by
      simp [format_opacity, PyTup.list, hc, h3]
    rw [this] at hfo
    simp only [Except.ok.injEq] at hfo
    rw [← hfo] at ha
    simp only [colorChannel, PyTup.list] at ha
    rw [List.getElem?_append_right (by omega)] at ha
    simp [h3] at ha
    omega

/-- C9 witness: the default theme (focus alpha 180) at the theorem. -/
theorem validate_focus_alpha_witness :
    ((∃ e, validate themeDefault = .error e) ↔ (180 : ℤ) = 0) ∧
    (∀ l, themeDefault.focus_background_color = some (ColorV.vec (PyTup.tup l)) →
      assert_color l = true → l.length = 3 → (180 : ℤ) = 255) :=
  validate_focus_alpha themeDefault (validateBodyOut themeDefault) 180 rfl rfl

/-- Any valid menubar style makes the style dispatch succeed. -/
theorem stylePolygon_ok (style : ℤ) (x y w rw rh : ℤ) (ox : ℚ)
    (hs : check_menubar_style style = true) :
    ∃ pcd, stylePolygon style x y w rw rh ox = .ok pcd := by
  simp only [check_menubar_style, decide_eq_true_eq] at hs
  rcases hs with h | h | h | h | h | h | h <;>
    simp [stylePolygon, h, MENUBAR_STYLE_ADAPTIVE, MENUBAR_STYLE_SIMPLE,
      MENUBAR_STYLE_TITLE_ONLY, MENUBAR_STYLE_TITLE_ONLY_DIAGONAL, MENUBAR_STYLE_NONE,
      MENUBAR_STYLE_UNDERLINE, MENUBAR_STYLE_UNDERLINE_TITLE]

/-- Inversion of a successful recomputing render. -/
theorem render_ok_recompute {ts : String → List ℤ → ℤ × ℤ} {m : MenuCtx}
    {mb mb2 : MenuBar} {r : Option Bool}
    (hch : mb.lastRenderHash ≠ some (renderHash m mb))
    (hok : render ts (some m) mb = .ok (mb2, r)) :
    ∃ poly cross dy,
      stylePolygon mb.style mb.rectX mb.rectY mb.width
          (ts mb.title mb.fontSelectedColor).1 (ts mb.title mb.fontSelectedColor).2
          mb.offsetx = .ok (poly, cross, dy) ∧
      mb2 = renderRecompute m mb (ts mb.title mb.fontSelectedColor).1
          (ts mb.title mb.fontSelectedColor).2 poly cross dy ∧
      r = none := by
  simp only [render] at hok
  rw [if_neg hch] at hok
  rcases hsp : stylePolygon mb.style mb.rectX mb.rectY mb.width
      (ts mb.title mb.fontSelectedColor).1 (ts mb.title mb.fontSelectedColor).2 mb.offsetx
    with e | ⟨poly, cross, dy⟩ <;> rw [hsp] at hok
  · cases hok
  · simp only [Except.ok.injEq, Prod.mk.injEq] at hok
    exact ⟨poly, cross, dy, rfl, hok.1.symm, hok.2.symm⟩

/-- C6: render recomputation is gated by the memoized hash of
(menu id, x, y, title, selected font color, at-root flag, visibility): an
unchanged tuple skips recomputation, reports unchanged and leaves the state
untouched; a changed tuple recomputes and stores the new hash. -/
theorem render_hash_gating (ts : String → List ℤ → ℤ × ℤ) (m : MenuCtx) (mb : MenuBar) :
    (mb.lastRenderHash = some (renderHash m mb) →
      render ts (some m) mb = .ok (mb, some true)) ∧
    (mb.lastRenderHash ≠ some (renderHash m mb) →
      check_menubar_style mb.style = true →
      ∃ mb2, render ts (some m) mb = .ok (mb2, none) ∧
        mb2.lastRenderHash = some (renderHash m mb)) := by
  constructor
  · intro h
    simp [render, h]
  · intro h hs
    obtain ⟨⟨poly, cross, dy⟩, hsp⟩ := stylePolygon_ok mb.style mb.rectX mb.rectY mb.width
      (ts mb.title mb.fontSelectedColor).1 (ts mb.title mb.fontSelectedColor).2 mb.offsetx hs
    refine ⟨renderRecompute m mb (ts mb.title mb.fontSelectedColor).1
      (ts mb.title mb.fontSelectedColor).2 poly cross dy, ?_, ?_⟩
    · simp [render, h, hsp]
    · simp [renderRecompute]

/-- C6 witness: skip at an unchanged hash, recompute and store at a fresh one. -/
theorem render_hash_gating_witness :
    render ts0 (some m0) mbSame = .ok (mbSame, some true) ∧
    ∃ mb2, render ts0 (some m0) mb0 = .ok (mb2, none) ∧
      mb2.lastRenderHash = some (renderHash m0 mb0) :=
  ⟨(render_hash_gating ts0 m0 mbSame).1 (by decide),
   (render_hash_gating ts0 m0 mb0).2 (by decide) (by decide)⟩

/-- C1: after a render recomputation with an owning menu, the polygon has
exactly the documented point count for its style: 6 for ADAPTIVE, 4 for
SIMPLE, 4 for TITLE_ONLY, 4 for TITLE_ONLY_DIAGONAL, 2 for NONE, 4 for
UNDERLINE and 4 for UNDERLINE_TITLE. -/
theorem render_polygon_point_count (ts : String → List ℤ → ℤ × ℤ) (m : MenuCtx)
    (mb mb2 : MenuBar) (r : Option Bool)
    (hch : mb.lastRenderHash ≠ some (renderHash m mb))
    (hs : check_menubar_style mb.style = true)
    (hok : render ts (some m) mb = .ok (mb2, r)) :
    ∃ poly, mb2.polygonPos = some poly ∧ poly.length = stylePointCount mb.style := by
  obtain ⟨poly, cross, dy, hsp, hmb2, hr⟩ := render_ok_recompute hch hok
  subst hmb2
  refine ⟨poly, by simp [renderRecompute], ?_⟩
  simp only [check_menubar_style, decide_eq_true_eq] at hs
  rcases hs with h | h | h | h | h | h | h <;>
    · rw [h] at hsp
      simp [stylePolygon, stylePointCount, MENUBAR_STYLE_ADAPTIVE, MENUBAR_STYLE_SIMPLE,
        MENUBAR_STYLE_TITLE_ONLY, MENUBAR_STYLE_TITLE_ONLY_DIAGONAL, MENUBAR_STYLE_NONE,
        MENUBAR_STYLE_UNDERLINE, MENUBAR_STYLE_UNDERLINE_TITLE] at hsp
      rw [h]
      obtain ⟨hp, -⟩ := hsp
      simp [← hp, stylePointCount, MENUBAR_STYLE_ADAPTIVE, MENUBAR_STYLE_SIMPLE,
        MENUBAR_STYLE_TITLE_ONLY, MENUBAR_STYLE_TITLE_ONLY_DIAGONAL, MENUBAR_STYLE_NONE,
        MENUBAR_STYLE_UNDERLINE, MENUBAR_STYLE_UNDERLINE_TITLE]

/-- C1 witness: the fresh adaptive menubar renders a 6-point polygon. -/
theorem render_polygon_point_count_witness :
    ∃ poly, (renderOut ts0 (some m0) mb0).polygonPos = some poly ∧
      poly.length = stylePointCount mb0.style :=
  render_polygon_point_count ts0 m0 mb0 (renderOut ts0 (some m0) mb0) none
    (by decide) (by decide) rfl

/-- C7: after a render recomputation with the back box enabled, the back-box
rect is set and the glyph polygon is the 9-point symmetric cross in CLOSE
mode and the 8-point chevron-plus-bar arrow in BACK mode, each point a fixed
offset from the rect corners and center. -/
theorem render_backbox_glyph (ts : String → List ℤ → ℤ × ℤ) (m : MenuCtx)
    (mb mb2 : MenuBar) (r : Option Bool)
    (hch : mb.lastRenderHash ≠ some (renderHash m mb))
    (hbb : mb.backbox = true)
    (hok : render ts (some m) mb = .ok (mb2, r)) :
    ∃ rect, mb2.backboxRect = some rect ∧
      (mb2.boxMode = MODE_CLOSE →
        mb2.backboxPos = some
          [(rect.left + 4, rect.top + 4), (rect.centerx, rect.centery),
           (rect.right - 4, rect.top + 4), (rect.centerx, rect.centery),
           (rect.right - 4, rect.bottom - 4), (rect.centerx, rect.centery),
           (rect.left + 4, rect.bottom - 4), (rect.centerx, rect.centery),
           (rect.left + 4, rect.top + 4)] ∧
        ∀ g, mb2.backboxPos = some g → g.length = 9) ∧
      (mb2.boxMode = MODE_BACK →
        mb2.backboxPos = some
          [(rect.left + 5, rect.centery), (rect.centerx, rect.top + 5),
           (rect.centerx, rect.centery - 2), (rect.right - 5, rect.centery - 2),
           (rect.right - 5, rect.centery + 2), (rect.centerx, rect.centery + 2),
           (rect.centerx, rect.bottom - 5), (rect.left + 5, rect.centery)] ∧
        ∀ g, mb2.backboxPos = some g → g.length = 8) := by
  obtain ⟨poly, cross, dy, hsp, hmb2, hr⟩ := render_ok_recompute hch hok
  subst hmb2
  refine ⟨backboxRectOf m mb cross, by simp [renderRecompute, hbb], ?_, ?_⟩
  · intro hcl
    cases hroot : m.atRoot
    · exfalso
      simp [renderRecompute, hroot, MODE_CLOSE, MODE_BACK] at hcl
    · constructor
      · simp [renderRecompute, hbb, hroot, closeGlyph, MODE_CLOSE]
      · intro g hg
        simp [renderRecompute, hbb, hroot, MODE_CLOSE, closeGlyph] at hg
        rw [← hg]
        rfl
  · intro hbk
    cases hroot : m.atRoot
    · constructor
      · simp [renderRecompute, hbb, hroot, backGlyph, MODE_CLOSE, MODE_BACK]
      · intro g hg
        simp [renderRecompute, hbb, hroot, MODE_CLOSE, MODE_BACK, backGlyph] at hg
        rw [← hg]
        rfl
    · exfalso
      simp [renderRecompute, hroot, MODE_CLOSE, MODE_BACK] at hbk

/-- C7 witness: the fresh adaptive menubar at the root shows the cross. -/
theorem render_backbox_glyph_witness :
    ∃ rect, (renderOut ts0 (some m0) mb0).backboxRect = some rect ∧
      ((renderOut ts0 (some m0) mb0).boxMode = MODE_CLOSE →
        (renderOut ts0 (some m0) mb0).backboxPos = some
          [(rect.left + 4, rect.top + 4), (rect.centerx, rect.centery),
           (rect.right - 4, rect.top + 4), (rect.centerx, rect.centery),
           (rect.right - 4, rect.bottom - 4), (rect.centerx, rect.centery),
           (rect.left + 4, rect.bottom - 4), (rect.centerx, rect.centery),
           (rect.left + 4, rect.top + 4)] ∧
        ∀ g, (renderOut ts0 (some m0) mb0).backboxPos = some g → g.length = 9) ∧
      ((renderOut ts0 (some m0) mb0).boxMode = MODE_BACK →
        (renderOut ts0 (some m0) mb0).backboxPos = some
          [(rect.left + 5, rect.centery), (rect.centerx, rect.top + 5),
           (rect.centerx, rect.centery - 2), (rect.right - 5, rect.centery - 2),
           (rect.right - 5, rect.centery + 2), (rect.centerx, rect.centery + 2),
           (rect.centerx, rect.bottom - 5), (rect.left + 5, rect.centery)] ∧
        ∀ g, (renderOut ts0 (some m0) mb0).backboxPos = some g → g.length = 8) :=
  render_backbox_glyph ts0 m0 mb0 (renderOut ts0 (some m0) mb0) none
    (by decide) rfl rfl

/-- C8: after a render recomputation with an owning menu, the back box is
interactive exactly when the mouse is enabled, a back box was requested and
not (at the navigation root with no configured close action). -/
theorem backbox_visible_iff (ts : String → List ℤ → ℤ × ℤ) (m : MenuCtx)
    (mb mb2 : MenuBar) (r : Option Bool)
    (hch : mb.lastRenderHash ≠ some (renderHash m mb))
    (hok : render ts (some m) mb = .ok (mb2, r)) :
    (backbox_visible (some m) mb2 = true ↔
      (mb.mouseEnabled = true ∧ mb.backbox = true ∧
        ¬ (m.atRoot = true ∧ m.hasOnclose = false))) := by
  obtain ⟨poly, cross, dy, hsp, hmb2, hr⟩ := render_ok_recompute hch hok
  subst hmb2
  cases hroot : m.atRoot <;> cases honc : m.hasOnclose <;>
    simp [backbox_visible, renderRecompute, MODE_CLOSE, MODE_BACK, hroot, honc]

/-- C8 witness: a requested back box at the root with no close action is
hidden even with the mouse enabled. -/
theorem backbox_visible_iff_witness :
    backbox_visible (some mNoClose) (renderOut ts0 (some mNoClose) mb0) = true ↔
      (mb0.mouseEnabled = true ∧ mb0.backbox = true ∧
        ¬ (mNoClose.atRoot = true ∧ mNoClose.hasOnclose = false)) :=
  backbox_visible_iff ts0 mNoClose mb0 (renderOut ts0 (some mNoClose) mb0) none
    (by decide) rfl

/-- A successful render never changes the scrollarea-modification flag or
the style. -/
theorem render_ok_fields {ts : String → List ℤ → ℤ × ℤ} {menu : Option MenuCtx}
    {mb mbR : MenuBar} {s : Option Bool}
    (h : render ts menu mb = .ok (mbR, s)) :
    mbR.modifyScrollarea = mb.modifyScrollarea ∧ mbR.style = mb.style := by
  cases menu with
  | none =>
    simp only [render, Except.ok.injEq, Prod.mk.injEq] at h
    rw [← h.1]
    exact ⟨rfl, rfl⟩
  | some m =>
    by_cases hch : mb.lastRenderHash = some (renderHash m mb)
    · simp only [render, if_pos hch, Except.ok.injEq, Prod.mk.injEq] at h
      rw [← h.1]
      exact ⟨rfl, rfl⟩
    · obtain ⟨poly, cross, dy, hsp, hmb2, hr⟩ := render_ok_recompute hch h
      subst hmb2
      simp [renderRecompute]

/-- C10: with the modify-scrollarea flag disabled, the scrollbar style
change is zero for every position, even the adaptive east query. -/
theorem gssc_modify_disabled (ts : String → List ℤ → ℤ × ℤ) (menu : Option MenuCtx)
    (pos : String) (mb mbR : MenuBar) (s : Option Bool)
    (hmod : mb.modifyScrollarea = false)
    (hr : render ts menu mb = .ok (mbR, s)) :
    get_scrollbar_style_change ts menu pos mb = .ok (mbR, (0, (0, 0))) := by
  have hpres := (render_ok_fields hr).1
  simp [get_scrollbar_style_change, hr, hpres, hmod]

/-- C10 witness: the adaptive menubar with the flag disabled, queried east. -/
theorem gssc_modify_disabled_witness :
    get_scrollbar_style_change ts0 (some m0) POSITION_EAST mb5 =
      .ok (renderOut ts0 (some m0) mb5, (0, (0, 0))) :=
  gssc_modify_disabled ts0 (some m0) POSITION_EAST mb5
    (renderOut ts0 (some m0) mb5) none rfl rfl

/-- C5 counterexample: an adaptive menubar with modify_scrollarea disabled,
queried east, returns the zero delta although the polygon vertical drop is
nonzero, so the claimed return of the drop fails as stated. -/
theorem get_scrollbar_style_change_counterexample :
    mb5.style = MENUBAR_STYLE_ADAPTIVE ∧
    ∃ mbR poly p2 p4,
      get_scrollbar_style_change ts0 (some m0) POSITION_EAST mb5 = .ok (mbR, (0, (0, 0))) ∧
      mbR.polygonPos = some poly ∧ poly[2]? = some p2 ∧ poly[4]? = some p4 ∧
      p4.2 - p2.2 ≠ 0 ∧
      ((0 : ℚ), ((0 : ℚ), (0 : ℚ))) ≠ (p4.2 - p2.2, (0, -(p4.2 - p2.2))) := by
  refine ⟨rfl, _, _, _, _, rfl, rfl, rfl, rfl, ?_, ?_⟩
  · show ((0:ℤ) : ℚ) + ((40:ℤ) : ℚ) - (((0:ℤ) : ℚ) + ((40:ℤ) : ℚ) * 0.6) ≠ 0
    push_cast
    norm_num
  · intro h
    have := congrArg Prod.fst h
    simp only at this
    revert this
    show ¬ ((0 : ℚ) = ((0:ℤ) : ℚ) + ((40:ℤ) : ℚ) - (((0:ℤ) : ℚ) + ((40:ℤ) : ℚ) * 0.6))
    push_cast
    norm_num

/-- C5 (amended): the scrollbar style change first re-renders; it is nonzero
only when modify_scrollarea is enabled with the adaptive style queried east,
in which case (modify_scrollarea enabled) it returns the vertical drop
between polygon vertices 4 and 2 as (drop, (0, -drop)); every other
style/position combination yields (0, (0, 0)). -/
theorem get_scrollbar_style_change_spec (ts : String → List ℤ → ℤ × ℤ)
    (m : MenuCtx) (mb mbR : MenuBar) (s : Option Bool) (pos : String)
    (hr : render ts (some m) mb = .ok (mbR, s)) :
    (∀ v, get_scrollbar_style_change ts (some m) pos mb = .ok (mbR, v) →
      v ≠ (0, (0, 0)) →
      mbR.modifyScrollarea = true ∧ mbR.style = MENUBAR_STYLE_ADAPTIVE ∧
        pos = POSITION_EAST) ∧
    (mbR.modifyScrollarea = true → mbR.style = MENUBAR_STYLE_ADAPTIVE →
      pos = POSITION_EAST →
      ∀ poly p2 p4, mbR.polygonPos = some poly → poly[2]? = some p2 →
        poly[4]? = some p4 →
        get_scrollbar_style_change ts (some m) pos mb =
          .ok (mbR, (p4.2 - p2.2, (0, -(p4.2 - p2.2))))) ∧
    ((mbR.style ≠ MENUBAR_STYLE_ADAPTIVE ∨ pos ≠ POSITION_EAST) →
      get_scrollbar_style_change ts (some m) pos mb = .ok (mbR, (0, (0, 0)))) := by
  refine ⟨?_, ?_, ?_⟩
  · intro v hv hne
    by_cases h1 : mbR.modifyScrollarea = true
    · by_cases h2 : mbR.style = MENUBAR_STYLE_ADAPTIVE
      · by_cases h3 : pos = POSITION_EAST
        · exact ⟨h1, h2, h3⟩
        · exfalso
          simp [get_scrollbar_style_change, hr, h1, h2, h3] at hv
          exact hne hv.symm
      · exfalso
        simp [get_scrollbar_style_change, hr, h1, h2] at hv
        exact hne hv.symm
    · exfalso
      rw [Bool.not_eq_true] at h1
      simp [get_scrollbar_style_change, hr, h1] at hv
      exact hne hv.symm
  · intro h1 h2 h3 poly p2 p4 hpoly hp2 hp4
    simp [get_scrollbar_style_change, hr, h1, h2, h3, hpoly, hp2, hp4]
  · intro h
    by_cases h1 : mbR.modifyScrollarea = true
    · rcases h with h | h
      · simp [get_scrollbar_style_change, hr, h1, h]
      · by_cases h2 : mbR.style = MENUBAR_STYLE_ADAPTIVE
        · simp [get_scrollbar_style_change, hr, h1, h2, h]
        · simp [get_scrollbar_style_change, hr, h1, h2]
    · rw [Bool.not_eq_true] at h1
      simp [get_scrollbar_style_change, hr, h1]

/-- C5 witness: the amended theorem at the fresh adaptive menubar with the
flag enabled, discharging the east and the non-east cases. -/
theorem get_scrollbar_style_change_spec_witness :
    (∀ poly p2 p4,
      (renderOut ts0 (some m0) mb0).polygonPos = some poly → poly[2]? = some p2 →
      poly[4]? = some p4 →
      get_scrollbar_style_change ts0 (some m0) POSITION_EAST mb0 =
        .ok (renderOut ts0 (some m0) mb0, (p4.2 - p2.2, (0, -(p4.2 - p2.2))))) ∧
    get_scrollbar_style_change ts0 (some m0) POSITION_NORTHWEST mb0 =
      .ok (renderOut ts0 (some m0) mb0, (0, (0, 0))) :=
  ⟨(get_scrollbar_style_change_spec ts0 m0 mb0 (renderOut ts0 (some m0) mb0) none
      POSITION_EAST rfl).2.1 rfl rfl rfl,
   (get_scrollbar_style_change_spec ts0 m0 mb0 (renderOut ts0 (some m0) mb0) none
      POSITION_NORTHWEST rfl).2.2 (Or.inr (by decide))⟩
